import Mathlib

/-!
# Verification of the Fashion App measurement core

Shallow embedding of the Measurement Calibration & Validation Engine:

* `ai_measurement_service/services/body_measurement.py`
  (`BodyMeasurementService`: `process_image`, `_calculate_measurements`,
  `_calculate_distance`, `_calculate_pose_confidence`, `_estimate_accuracy`,
  `_generate_recommendations`), and
* `measurements/services.py`
  (`AIMeasurementIntegrationService.validate_ai_measurements`, comparison loop
  and rollup).

Python floats are idealised as real numbers `ℝ` for the geometric pipeline
(the Euclidean distance needs `Real.sqrt`) and as rationals `ℚ` for the purely
arithmetic validation engine, which keeps the latter fully decidable.
Python list indexing `lms[i]` (which raises `IndexError` for `i ≥ len`) is
embedded as `List.get? i`; the single `try/except` that wraps the calibration
and measurement block of `_calculate_measurements` is embedded by returning,
at the first failing index access, exactly the measurements accumulated so
far — which is what the `except ... pass` in the source does.

One deliberate divergence from CPython/numpy, noted where it matters: Lean's
real division by zero yields `0`, while numpy's `float / float64(0.0)` yields
`inf`.  No theorem below depends on the value of a division by zero; the
degenerate-geometry theorems only use control-flow facts (which branch is
taken, which errors are appended) that are identical in both semantics.
-/

namespace FashionApp

/-! ## Data model (`ai_measurement_service/models/schemas.py`) -/

/-- `BodyLandmark` (schemas.py): one landmark in pixel space. -/
structure BodyLandmark where
  x : ℝ
  y : ℝ
  z : Option ℝ
  visibility : Option ℝ

/-- A raw MediaPipe landmark as consumed by `_extract_landmarks`:
normalized coordinates, depth and visibility are always present. -/
structure RawLandmark where
  x : ℝ
  y : ℝ
  z : ℝ
  visibility : ℝ

/-- `MeasurementResult` (schemas.py). -/
structure MeasurementResult where
  name : String
  value : ℝ
  confidence : ℝ
  method : String

/-- `MeasurementCalibration` (schemas.py). -/
structure MeasurementCalibration where
  reference_object_pixels : ℝ
  reference_object_real_size : ℝ
  pixel_to_cm_ratio : ℝ
  calibration_confidence : ℝ

/-- `AIMeasurementResponse` (schemas.py), restricted to the fields the
pipeline computes (metadata and wall-clock processing time are dropped:
they carry no algorithmic content). -/
structure AIMeasurementResponse where
  success : Bool
  measurements : List MeasurementResult
  image_width : ℕ
  image_height : ℕ
  pose_detection_confidence : ℝ
  overall_accuracy : ℝ
  errors : List String
  recommendations : List String

/-- `Settings.REFERENCE_HEIGHT_CM` (core/config.py line 54). -/
def REFERENCE_HEIGHT_CM : ℝ := 170.0

noncomputable section

/-! ## `BodyMeasurementService` (services/body_measurement.py) -/

/-- `_calculate_distance` (body_measurement.py lines 332-334):
plane Euclidean distance between two landmarks. -/
def calculate_distance (point1 point2 : BodyLandmark) : ℝ :=
  Real.sqrt ((point1.x - point2.x) ^ 2 + (point1.y - point2.y) ^ 2)

/-- `_extract_landmarks` (lines 157-172): scale normalized coordinates to
pixel space; `z` and `visibility` pass through. -/
def extract_landmarks (raw : List RawLandmark) (width height : ℕ) :
    List BodyLandmark :=
  raw.map fun l => ⟨l.x * width, l.y * height, some l.z, some l.visibility⟩

/-- `_calculate_measurements` (lines 174-330).

The body is one `try:` block; the only statements in it that can raise are
the list index accesses `lms[i]` (everything else is float arithmetic and
model construction).  Each `match` on `lms.get? i` below is one such access,
in source order: on the first failure the `except` clause returns the
measurements accumulated so far together with the calibration, if it was
already assigned (`return measurements, calibration`, line 330).

`if reference_height:` tests Python truthiness: the reference branch is
taken iff the argument is present and nonzero. -/
def calculate_measurements (lms : List BodyLandmark)
    (reference_height : Option ℝ) :
    List MeasurementResult × Option MeasurementCalibration :=
  -- calibration: accesses lms[0] (nose) and lms[27] (left_ankle)
  match lms.get? 0, lms.get? 27 with
  | some nose, some left_ankle =>
    let head_to_ankle := calculate_distance nose left_ankle
    let calibration : MeasurementCalibration :=
      match reference_height with
      | some r =>
        if r = 0 then
          -- Python: `0.0` is falsy, so the estimated-height branch runs
          { reference_object_pixels := head_to_ankle
            reference_object_real_size := REFERENCE_HEIGHT_CM
            pixel_to_cm_ratio := REFERENCE_HEIGHT_CM / head_to_ankle
            calibration_confidence := 0.7 }
        else
          { reference_object_pixels := head_to_ankle
            reference_object_real_size := r
            pixel_to_cm_ratio := r / head_to_ankle
            calibration_confidence := 0.9 }
      | none =>
        { reference_object_pixels := head_to_ankle
          reference_object_real_size := REFERENCE_HEIGHT_CM
          pixel_to_cm_ratio := REFERENCE_HEIGHT_CM / head_to_ankle
          calibration_confidence := 0.7 }
    let pixel_to_cm_ratio := calibration.pixel_to_cm_ratio
    -- 1. Height: lms[0], lms[27] again (distance recomputed, lines 244-247)
    let height_m : MeasurementResult :=
      { name := "height"
        value := calculate_distance nose left_ankle * pixel_to_cm_ratio
        confidence := 0.9
        method := "nose_to_ankle_distance" }
    -- 2. Shoulder width: lms[11], lms[12]
    match lms.get? 11, lms.get? 12 with
    | some left_shoulder, some right_shoulder =>
      let shoulder_m : MeasurementResult :=
        { name := "shoulder_width"
          value := calculate_distance left_shoulder right_shoulder *
            pixel_to_cm_ratio
          confidence := 0.85
          method := "shoulder_to_shoulder_distance" }
      -- 3. Arm length: lms[11] (already read), lms[15]
      match lms.get? 15 with
      | some left_wrist =>
        let arm_m : MeasurementResult :=
          { name := "arm_length"
            value := calculate_distance left_shoulder left_wrist *
              pixel_to_cm_ratio
            confidence := 0.8
            method := "shoulder_to_wrist_distance" }
        -- 4./5. Waist and hips: lms[23], lms[24]
        match lms.get? 23, lms.get? 24 with
        | some left_hip, some right_hip =>
          let hip_width := calculate_distance left_hip right_hip
          let waist_m : MeasurementResult :=
            { name := "waist"
              value := hip_width * 0.75 * pixel_to_cm_ratio
              confidence := 0.6
              method := "hip_width_estimation" }
          let hips_m : MeasurementResult :=
            { name := "hips"
              value := hip_width * pixel_to_cm_ratio
              confidence := 0.8
              method := "hip_to_hip_distance" }
          -- 6. Inseam: lms[23], lms[27] (both already known to exist)
          let inseam_m : MeasurementResult :=
            { name := "inseam"
              value := calculate_distance left_hip left_ankle *
                pixel_to_cm_ratio
              confidence := 0.85
              method := "hip_to_ankle_distance" }
          -- 7. Torso length: lms[11], lms[23]
          let torso_m : MeasurementResult :=
            { name := "torso_length"
              value := calculate_distance left_shoulder left_hip *
                pixel_to_cm_ratio
              confidence := 0.8
              method := "shoulder_to_hip_distance" }
          ([height_m, shoulder_m, arm_m, waist_m, hips_m, inseam_m, torso_m],
            some calibration)
        | _, _ => ([height_m, shoulder_m, arm_m], some calibration)
      | none => ([height_m, shoulder_m], some calibration)
    | _, _ => ([height_m], some calibration)
  | _, _ => ([], none)

/-- The fixed key-landmark index set of `_calculate_pose_confidence`
(line 342). -/
def key_landmark_indices : List ℕ := [0, 11, 12, 23, 24, 25, 26, 27, 28]

/-- `_calculate_pose_confidence` (lines 336-354): average visibility over
the key landmark indices that are in range; `0.0` when none are. -/
def calculate_pose_confidence (lms : List RawLandmark) : ℝ :=
  let valid := key_landmark_indices.filter fun i => i < lms.length
  if valid.length = 0 then 0
  else (valid.map fun i => ((lms.get? i).map RawLandmark.visibility).getD 0).sum
    / valid.length

/-- `_estimate_accuracy` (lines 356-368). -/
def estimate_accuracy (measurements : List MeasurementResult)
    (pose_confidence : ℝ) : ℝ :=
  match measurements with
  | [] => 0
  | _ =>
    let total_confidence := (measurements.map MeasurementResult.confidence).sum
    let avg_measurement_confidence := total_confidence / measurements.length
    min (avg_measurement_confidence * 0.7 + pose_confidence * 0.3) 1

/-- `_generate_recommendations` (lines 370-392). -/
def generate_recommendations (measurements : List MeasurementResult)
    (pose_confidence : ℝ) : List String :=
  (if pose_confidence < 0.7 then
    ["Improve lighting conditions for better pose detection",
     "Ensure the person is standing straight and facing the camera"]
   else []) ++
  (if pose_confidence < 0.5 then
    ["Consider retaking the photo with the person more clearly visible"]
   else []) ++
  (if measurements.any fun m => decide (m.confidence < 0.7) then
    ["Some measurements have lower confidence - consider manual verification"]
   else []) ++
  (if measurements.length < 5 then
    ["Limited measurements detected - ensure full body is visible in the image"]
   else []) ++
  ["For best results, use a photo with the person standing against a plain background",
   "Ensure the person is wearing fitted clothing for more accurate measurements"]

/-- `process_image` (lines 45-134), with the external collaborators
abstracted away: image decoding and MediaPipe pose detection are replaced by
the `detection` argument (`none` models `results.pose_landmarks` being
absent).  The per-request `try/except` of `process_image` is unreachable in
the embedded part: `_calculate_measurements` catches its own exceptions, and
the remaining steps are total arithmetic. -/
def process_image (detection : Option (List RawLandmark))
    (original_width original_height : ℕ) (reference_height : Option ℝ) :
    AIMeasurementResponse :=
  match detection with
  | none =>
    { success := false
      measurements := []
      image_width := original_width
      image_height := original_height
      pose_detection_confidence := 0.0
      overall_accuracy := 0.0
      errors := ["No pose detected in image"]
      recommendations :=
        ["Ensure the person is fully visible in the image",
         "Use good lighting conditions",
         "Make sure the person is standing straight"] }
  | some raw =>
    let landmarks := extract_landmarks raw original_width original_height
    let measurements := (calculate_measurements landmarks reference_height).1
    let pose_confidence := calculate_pose_confidence raw
    let overall_accuracy := estimate_accuracy measurements pose_confidence
    { success := true
      measurements := measurements
      image_width := original_width
      image_height := original_height
      pose_detection_confidence := pose_confidence
      overall_accuracy := overall_accuracy
      errors := []
      recommendations := generate_recommendations measurements pose_confidence }

end

/-! ## Validation engine (`measurements/services.py`,
`AIMeasurementIntegrationService.validate_ai_measurements`, lines 199-293)

The Django model fetch that picks the manual measurement is persistence glue;
the embedded function takes the two already-produced measurement records.
`Measurement` model values are nullable floats, idealised as `Option ℚ` so
the whole engine stays decidable. -/

/-- The eight nullable comparison fields of the Django `Measurement` model
read by the validation loop. -/
structure MeasurementFields where
  bust : Option ℚ
  waist : Option ℚ
  hips : Option ℚ
  chest : Option ℚ
  shoulder_width : Option ℚ
  arm_length : Option ℚ
  height : Option ℚ
  inseam : Option ℚ
deriving DecidableEq

/-- `field_names` (services.py lines 231-234), in source order. -/
def field_names : List String :=
  ["bust", "waist", "hips", "chest", "shoulder_width",
   "arm_length", "height", "inseam"]

/-- `getattr(measurement, field)` for the fixed field list. -/
def getField (m : MeasurementFields) : String → Option ℚ
  | "bust" => m.bust
  | "waist" => m.waist
  | "hips" => m.hips
  | "chest" => m.chest
  | "shoulder_width" => m.shoulder_width
  | "arm_length" => m.arm_length
  | "height" => m.height
  | "inseam" => m.inseam
  | _ => none

/-- One entry of the `comparisons` dict (services.py lines 247-253). -/
structure FieldComparison where
  ai_value : ℚ
  manual_value : ℚ
  difference : ℚ
  percentage_difference : ℚ
  acceptable : Bool
deriving DecidableEq

/-- Loop body for one field present in both sets (lines 244-252):
absolute difference, percentage difference with the manual value as
denominator (0 when the manual value is not positive), 10% acceptance. -/
def compareField (ai_value manual_value : ℚ) : FieldComparison :=
  let difference := |ai_value - manual_value|
  let percentage_diff :=
    if 0 < manual_value then difference / manual_value * 100 else 0
  { ai_value := ai_value
    manual_value := manual_value
    difference := difference
    percentage_difference := percentage_diff
    acceptable := percentage_diff ≤ 10 }

/-- The comparison loop (lines 239-257): one `FieldComparison` per field
present (non-`None`) in both records, in catalog order. -/
def buildComparisons (measurement manual_measurement : MeasurementFields) :
    List (String × FieldComparison) :=
  field_names.filterMap fun field =>
    match getField measurement field, getField manual_measurement field with
    | some ai_value, some manual_value =>
      some (field, compareField ai_value manual_value)
    | _, _ => none

/-- Shape of the dict returned by `validate_ai_measurements`: either the
"not available" dict (`validation_available: False`, lines 259-263) or the
full rollup dict (lines 272-286). -/
inductive ValidationOutcome where
  | unavailable (message : String)
  | available (validation_passed : Bool) (accuracy_score : ℚ)
      (average_discrepancy : ℚ) (compared_fields : ℕ)
      (acceptable_measurements : ℕ)
      (comparisons : List (String × FieldComparison))
deriving DecidableEq

/-- The `validation_available` key of the returned dict. -/
def ValidationOutcome.validation_available : ValidationOutcome → Bool
  | .unavailable _ => false
  | .available _ _ _ _ _ _ => true

/-- `validate_ai_measurements` (lines 228-286), comparison and rollup part.
Total by construction: the `compared_fields = 0` branch returns the
"not available" outcome before any division happens. -/
def validate_ai_measurements (measurement manual_measurement :
    MeasurementFields) : ValidationOutcome :=
  let comparisons := buildComparisons measurement manual_measurement
  let compared_fields := comparisons.length
  let total_discrepancy :=
    (comparisons.map fun c => c.2.percentage_difference).sum
  if compared_fields = 0 then
    .unavailable "No comparable measurements found"
  else
    let average_discrepancy := total_discrepancy / (compared_fields : ℚ)
    let accuracy_score := max 0 (100 - average_discrepancy) / 100
    let acceptable_measurements :=
      (comparisons.filter fun c => c.2.acceptable).length
    let validation_passed :=
      decide ((acceptable_measurements : ℚ) / (compared_fields : ℚ) ≥ 7/10)
    .available validation_passed accuracy_score average_discrepancy
      compared_fields acceptable_measurements comparisons

/-! ## Concrete inputs used by witnesses and counterexamples -/

/-- Filler landmark for indices whose value is irrelevant. -/
def stub_landmark : BodyLandmark := ⟨0, 0, none, none⟩

/-- A 33-point pixel-space landmark set for a stick figure with axis-aligned
segments, so every catalog distance is the square root of a perfect square:
nose (100,0), shoulders (100,140)/(200,140), left wrist (100,200),
hips (100,100)/(200,100), left ankle (100,170). -/
def demo_lms : List BodyLandmark :=
  [⟨100, 0, none, none⟩,
   stub_landmark, stub_landmark, stub_landmark, stub_landmark, stub_landmark,
   stub_landmark, stub_landmark, stub_landmark, stub_landmark, stub_landmark,
   ⟨100, 140, none, none⟩, ⟨200, 140, none, none⟩,
   stub_landmark, stub_landmark,
   ⟨100, 200, none, none⟩,
   stub_landmark, stub_landmark, stub_landmark, stub_landmark, stub_landmark,
   stub_landmark, stub_landmark,
   ⟨100, 100, none, none⟩, ⟨200, 100, none, none⟩,
   stub_landmark, stub_landmark,
   ⟨100, 170, none, none⟩,
   stub_landmark, stub_landmark, stub_landmark, stub_landmark, stub_landmark]

/-- A degenerate 33-point detection: every landmark at the same normalized
position, so the nose and the left ankle coincide and `head_to_ankle = 0`. -/
def degenerate_raw : List RawLandmark := List.replicate 33 ⟨0.5, 0.5, 0, 1⟩

/-- The pixel-space landmark every entry of `degenerate_raw` maps to under
`extract_landmarks _ 100 100`. -/
def degenerate_px : BodyLandmark := ⟨0.5 * 100, 0.5 * 100, some 0, some 1⟩

/-- An incomplete detection with 28 landmarks (indices 0-27): enough for
every index the measurement code touches, but not the required 33. -/
def raw_28 : List RawLandmark := List.replicate 28 ⟨0.25, 0.5, 0, 1⟩

/-- A measurement record with only `waist = 90` set (the manual reference). -/
def only_waist_90 : MeasurementFields :=
  ⟨none, some 90, none, none, none, none, none, none⟩

/-- A measurement record with only `waist = 100` set. -/
def only_waist_100 : MeasurementFields :=
  ⟨none, some 100, none, none, none, none, none, none⟩

/-- A measurement record with only `waist = 95` set. -/
def only_waist_95 : MeasurementFields :=
  ⟨none, some 95, none, none, none, none, none, none⟩

/-- A measurement record with every field absent. -/
def all_absent : MeasurementFields :=
  ⟨none, none, none, none, none, none, none, none⟩

/-! ## Helper lemmas -/

/-- Evaluate `calculate_distance` when the squared distance is a known
perfect square. -/
theorem calculate_distance_eval (p q : BodyLandmark) (d : ℝ) (hd : 0 ≤ d)
    (h : (p.x - q.x) ^ 2 + (p.y - q.y) ^ 2 = d ^ 2) :
    calculate_distance p q = d := by
  rw [calculate_distance, h, Real.sqrt_sq hd]

/-- The distance from a landmark to itself is zero. -/
theorem calculate_distance_self (p : BodyLandmark) :
    calculate_distance p p = 0 := by
  simp [calculate_distance]

/-! ## C7: the no-detection short-circuit -/

/-- C7: when the pose-estimation collaborator reports no landmarks, the
pipeline returns `success = false`, an empty measurement list, zero pose
confidence and overall accuracy, and exactly the three fixed no-detection
recommendations, without attempting calibration or measurement. -/
theorem no_detection_result (w h : ℕ) (reference_height : Option ℝ) :
    process_image none w h reference_height =
      { success := false
        measurements := []
        image_width := w
        image_height := h
        pose_detection_confidence := 0.0
        overall_accuracy := 0.0
        errors := ["No pose detected in image"]
        recommendations :=
          ["Ensure the person is fully visible in the image",
           "Use good lighting conditions",
           "Make sure the person is standing straight"] } := rfl

/-! ## C1: degenerate geometry is not surfaced as an error -/

/-- C1 (code bug): with all landmarks coincident (`head_to_ankle = 0`) the
pipeline does NOT fail with a degenerate-geometry error: the returned result
has `success = true` and an empty error list, and a calibration is still
produced whose `reference_object_pixels` is `0` — the division
`reference_height / head_to_ankle` is performed unguarded.  (In the Python
source the numpy division of a positive float by `float64(0.0)` yields
`inf`, so `pixel_to_cm_ratio` is non-finite; this theorem records the
control-flow facts, which do not depend on that value.) -/
theorem degenerate_geometry_not_flagged :
    (process_image (some degenerate_raw) 100 100 (some 170)).errors = [] ∧
    (process_image (some degenerate_raw) 100 100 (some 170)).success = true ∧
    ∃ cal,
      (calculate_measurements (extract_landmarks degenerate_raw 100 100)
        (some 170)).2 = some cal ∧
      cal.reference_object_pixels = 0 := by
  refine ⟨rfl, rfl, ?_⟩
  have h0 : (extract_landmarks degenerate_raw 100 100).get? 0 =
      some degenerate_px := rfl
  have h11 : (extract_landmarks degenerate_raw 100 100).get? 11 =
      some degenerate_px := rfl
  have h12 : (extract_landmarks degenerate_raw 100 100).get? 12 =
      some degenerate_px := rfl
  have h15 : (extract_landmarks degenerate_raw 100 100).get? 15 =
      some degenerate_px := rfl
  have h23 : (extract_landmarks degenerate_raw 100 100).get? 23 =
      some degenerate_px := rfl
  have h24 : (extract_landmarks degenerate_raw 100 100).get? 24 =
      some degenerate_px := rfl
  have h27 : (extract_landmarks degenerate_raw 100 100).get? 27 =
      some degenerate_px := rfl
  have hred : (calculate_measurements (extract_landmarks degenerate_raw 100 100)
      (some 170)).2 =
      some { reference_object_pixels :=
               calculate_distance degenerate_px degenerate_px
             reference_object_real_size := 170
             pixel_to_cm_ratio :=
               170 / calculate_distance degenerate_px degenerate_px
             calibration_confidence := 0.9 } := by
    simp only [calculate_measurements, h0, h11, h12, h15, h23, h24, h27]
    rw [if_neg (by norm_num : ¬((170:ℝ) = 0))]
  exact ⟨_, hred, calculate_distance_self degenerate_px⟩

/-! ## C2: one failed measurement aborts the remaining ones -/

/-- C2 (code bug): with a 27-point landmark set (index 27, the left ankle,
missing) the height computation's landmark pair is invalid, and the single
`try/except` around the whole block then drops every other measurement as
well: the shoulder-width pair (indices 11 and 12) is valid, yet the returned
measurement list is empty — a failure in one measurement blocks the
others. -/
theorem one_failure_blocks_all :
    ((List.replicate 27 stub_landmark).get? 11).isSome = true ∧
    ((List.replicate 27 stub_landmark).get? 12).isSome = true ∧
    ((List.replicate 27 stub_landmark).get? 27).isSome = false ∧
    calculate_measurements (List.replicate 27 stub_landmark) none =
      ([], none) :=
  ⟨rfl, rfl, rfl, rfl⟩

/-! ## C3: incomplete landmark sets are not rejected -/

/-- C3 (code bug): an input with 28 landmarks (not the required 33) is NOT
rejected before calibration: the pipeline computes a pixel-to-unit ratio
(the calibration is `some _`) and produces all 7 catalog measurements from
the incomplete set, returning `success = true`. -/
theorem incomplete_set_not_rejected :
    raw_28.length ≠ 33 ∧
    (calculate_measurements (extract_landmarks raw_28 400 340) none).2.isSome
      = true ∧
    (process_image (some raw_28) 400 340 none).measurements.length = 7 ∧
    (process_image (some raw_28) 400 340 none).success = true :=
  ⟨by decide, rfl, rfl, rfl⟩

/-! ## C8: the waist estimate -/

/-- C8: on any landmark set providing the indices the calculator touches,
the waist measurement (position 3 of the catalog) is exactly
`dist(left_hip, right_hip) * 0.75 * ratio` where `ratio` is the produced
calibration's `pixel_to_cm_ratio`, with confidence `0.6` and method
`"hip_width_estimation"`. -/
theorem waist_is_scaled_hip_width (lms : List BodyLandmark)
    (nose left_shoulder right_shoulder left_wrist left_hip right_hip
      left_ankle : BodyLandmark)
    (reference_height : Option ℝ)
    (h0 : lms.get? 0 = some nose)
    (h11 : lms.get? 11 = some left_shoulder)
    (h12 : lms.get? 12 = some right_shoulder)
    (h15 : lms.get? 15 = some left_wrist)
    (h23 : lms.get? 23 = some left_hip)
    (h24 : lms.get? 24 = some right_hip)
    (h27 : lms.get? 27 = some left_ankle) :
    ∃ cal, (calculate_measurements lms reference_height).2 = some cal ∧
      (calculate_measurements lms reference_height).1.get? 3 =
        some { name := "waist"
               value := calculate_distance left_hip right_hip * 0.75 *
                 cal.pixel_to_cm_ratio
               confidence := 0.6
               method := "hip_width_estimation" } := by
  simp only [calculate_measurements, h0, h11, h12, h15, h23, h24, h27]
  exact ⟨_, rfl, rfl⟩

/-! ## C9: the calibration inverse relation -/

/-- C9: for a complete landmark set with `head_to_ankle > 0` (and a positive
reference height when one is supplied, as §4.2 of the spec requires), the
produced calibration satisfies
`pixel_to_cm_ratio * reference_object_pixels = reference_object_real_size`,
where the real size is the caller-supplied reference height with confidence
`0.9`, or the default `REFERENCE_HEIGHT_CM = 170.0` with confidence `0.7`
when none is supplied. -/
theorem calibration_ratio_inverts_reference (lms : List BodyLandmark)
    (nose left_ankle : BodyLandmark) (reference_height : Option ℝ)
    (hlen : lms.length = 33)
    (h0 : lms.get? 0 = some nose)
    (h27 : lms.get? 27 = some left_ankle)
    (hpos : 0 < calculate_distance nose left_ankle)
    (href : ∀ x, reference_height = some x → 0 < x) :
    ∃ cal, (calculate_measurements lms reference_height).2 = some cal ∧
      cal.reference_object_pixels = calculate_distance nose left_ankle ∧
      cal.pixel_to_cm_ratio * cal.reference_object_pixels =
        cal.reference_object_real_size ∧
      (∀ x, reference_height = some x →
        cal.reference_object_real_size = x ∧
        cal.calibration_confidence = 0.9) ∧
      (reference_height = none →
        cal.reference_object_real_size = REFERENCE_HEIGHT_CM ∧
        cal.calibration_confidence = 0.7) := by
  have h11 := List.get?_eq_get (l := lms) (n := 11) (by omega)
  have h12 := List.get?_eq_get (l := lms) (n := 12) (by omega)
  have h15 := List.get?_eq_get (l := lms) (n := 15) (by omega)
  have h23 := List.get?_eq_get (l := lms) (n := 23) (by omega)
  have h24 := List.get?_eq_get (l := lms) (n := 24) (by omega)
  have hd : calculate_distance nose left_ankle ≠ 0 := ne_of_gt hpos
  rcases reference_height with _ | r
  · have hred : (calculate_measurements lms none).2 =
        some { reference_object_pixels := calculate_distance nose left_ankle
               reference_object_real_size := REFERENCE_HEIGHT_CM
               pixel_to_cm_ratio :=
                 REFERENCE_HEIGHT_CM / calculate_distance nose left_ankle
               calibration_confidence := 0.7 } := by
      simp only [calculate_measurements, h0, h11, h12, h15, h23, h24, h27]
    refine ⟨_, hred, rfl, div_mul_cancel₀ _ hd, ?_, ?_⟩
    · intro x hx
      cases hx
    · intro _
      exact ⟨rfl, rfl⟩
  · have hr : r ≠ 0 := ne_of_gt (href r rfl)
    have hred : (calculate_measurements lms (some r)).2 =
        some { reference_object_pixels := calculate_distance nose left_ankle
               reference_object_real_size := r
               pixel_to_cm_ratio := r / calculate_distance nose left_ankle
               calibration_confidence := 0.9 } := by
      simp only [calculate_measurements, h0, h11, h12, h15, h23, h24, h27]
      rw [if_neg hr]
    refine ⟨_, hred, rfl, div_mul_cancel₀ _ hd, ?_, ?_⟩
    · intro x hx
      cases hx
      exact ⟨rfl, rfl⟩
    · intro hx
      cases hx

/-! ## C10: the height output is the calibration reference -/

/-- C10: whenever the measurement computation succeeds on a complete
landmark set with `head_to_ankle > 0` (positive reference height when
supplied), the returned `height` measurement is a constant independent of
the landmark geometry: the caller-supplied reference height when given,
`REFERENCE_HEIGHT_CM = 170.0` otherwise — the height uses the same
nose-to-left-ankle distance that defines the ratio, so the scale cancels. -/
theorem height_output_is_reference_constant (lms : List BodyLandmark)
    (nose left_shoulder right_shoulder left_wrist left_hip right_hip
      left_ankle : BodyLandmark)
    (reference_height : Option ℝ)
    (h0 : lms.get? 0 = some nose)
    (h11 : lms.get? 11 = some left_shoulder)
    (h12 : lms.get? 12 = some right_shoulder)
    (h15 : lms.get? 15 = some left_wrist)
    (h23 : lms.get? 23 = some left_hip)
    (h24 : lms.get? 24 = some right_hip)
    (h27 : lms.get? 27 = some left_ankle)
    (hpos : 0 < calculate_distance nose left_ankle)
    (href : ∀ x, reference_height = some x → 0 < x) :
    (calculate_measurements lms reference_height).1.get? 0 =
      some { name := "height"
             value := reference_height.getD REFERENCE_HEIGHT_CM
             confidence := 0.9
             method := "nose_to_ankle_distance" } := by
  have hd : calculate_distance nose left_ankle ≠ 0 := ne_of_gt hpos
  rcases reference_height with _ | r
  · simp only [calculate_measurements, h0, h11, h12, h15, h23, h24, h27,
      Option.getD, List.get?_cons_zero, Option.some.injEq,
      MeasurementResult.mk.injEq, true_and, and_true]
    field_simp
  · have hr : r ≠ 0 := ne_of_gt (href r rfl)
    simp only [calculate_measurements, h0, h11, h12, h15, h23, h24, h27,
      if_neg hr, Option.getD, List.get?_cons_zero, Option.some.injEq,
      MeasurementResult.mk.injEq, true_and, and_true]
    field_simp

/-! ## Demo stick-figure distance evaluations -/

/-- Nose to left ankle in `demo_lms`: 170 pixels. -/
theorem demo_nose_ankle_distance :
    calculate_distance ⟨100, 0, none, none⟩ ⟨100, 170, none, none⟩ = 170 :=
  calculate_distance_eval _ _ 170 (by norm_num) (by norm_num)

/-- Left hip to right hip in `demo_lms`: 100 pixels. -/
theorem demo_hip_distance :
    calculate_distance ⟨100, 100, none, none⟩ ⟨200, 100, none, none⟩ = 100 :=
  calculate_distance_eval _ _ 100 (by norm_num) (by norm_num)

/-- The calibration produced on `demo_lms` with reference height 170. -/
theorem demo_calibration :
    (calculate_measurements demo_lms (some 170)).2 =
      some { reference_object_pixels :=
               calculate_distance ⟨100, 0, none, none⟩ ⟨100, 170, none, none⟩
             reference_object_real_size := 170
             pixel_to_cm_ratio := 170 /
               calculate_distance ⟨100, 0, none, none⟩ ⟨100, 170, none, none⟩
             calibration_confidence := 0.9 } := by
  have h0 : demo_lms.get? 0 = some ⟨100, 0, none, none⟩ := rfl
  have h11 : demo_lms.get? 11 = some ⟨100, 140, none, none⟩ := rfl
  have h12 : demo_lms.get? 12 = some ⟨200, 140, none, none⟩ := rfl
  have h15 : demo_lms.get? 15 = some ⟨100, 200, none, none⟩ := rfl
  have h23 : demo_lms.get? 23 = some ⟨100, 100, none, none⟩ := rfl
  have h24 : demo_lms.get? 24 = some ⟨200, 100, none, none⟩ := rfl
  have h27 : demo_lms.get? 27 = some ⟨100, 170, none, none⟩ := rfl
  simp only [calculate_measurements, h0, h11, h12, h15, h23, h24, h27]
  rw [if_neg (by norm_num : ¬((170:ℝ) = 0))]

/-- Witness for C8: on the demo stick figure (hip width 100 pixels, ratio
`170/170 = 1`) the waist measurement is exactly `75.0` with confidence
`0.6`. -/
theorem waist_is_scaled_hip_width_witness :
    (calculate_measurements demo_lms (some 170)).1.get? 3 =
      some { name := "waist"
             value := 75
             confidence := 0.6
             method := "hip_width_estimation" } := by
  obtain ⟨cal, hcal, hw⟩ := waist_is_scaled_hip_width demo_lms _ _ _ _ _ _ _
    (some 170) rfl rfl rfl rfl rfl rfl rfl
  rw [demo_calibration] at hcal
  obtain rfl := Option.some.inj hcal
  rw [hw, demo_hip_distance]
  rw [demo_nose_ankle_distance]
  norm_num

/-- Witness for C9: on the demo stick figure with reference height 170 the
calibration inverse relation holds, the real size is the supplied 170 and
the confidence is 0.9. -/
theorem calibration_ratio_inverts_reference_witness :
    ∃ cal, (calculate_measurements demo_lms (some 170)).2 = some cal ∧
      cal.pixel_to_cm_ratio * cal.reference_object_pixels =
        cal.reference_object_real_size ∧
      cal.reference_object_real_size = 170 ∧
      cal.calibration_confidence = 0.9 := by
  obtain ⟨cal, hcal, _hpix, hinv, hsome, _hnone⟩ :=
    calibration_ratio_inverts_reference demo_lms _ _ (some 170) rfl rfl rfl
      (by rw [demo_nose_ankle_distance]; norm_num)
      (fun x hx => by cases hx; norm_num)
  exact ⟨cal, hcal, hinv, (hsome 170 rfl).1, (hsome 170 rfl).2⟩

/-- Witness for C10: on the demo stick figure with reference height 170 the
returned height measurement is exactly 170. -/
theorem height_output_is_reference_constant_witness :
    (calculate_measurements demo_lms (some 170)).1.get? 0 =
      some { name := "height"
             value := 170
             confidence := 0.9
             method := "nose_to_ankle_distance" } :=
  height_output_is_reference_constant demo_lms _ _ _ _ _ _ _ (some 170)
    rfl rfl rfl rfl rfl rfl rfl
    (by rw [demo_nose_ankle_distance]; norm_num)
    (fun x hx => by cases hx; norm_num)

/-! ## C6: the overall accuracy blend -/

/-- Pose confidence is an average of visibilities, hence in `[0,1]` when
all visibilities are. -/
theorem calculate_pose_confidence_mem_Icc (raw : List RawLandmark)
    (hv : ∀ l ∈ raw, l.visibility ∈ Set.Icc (0:ℝ) 1) :
    calculate_pose_confidence raw ∈ Set.Icc (0:ℝ) 1 := by
  simp only [calculate_pose_confidence]
  by_cases h : (key_landmark_indices.filter fun i => i < raw.length).length = 0
  · rw [if_pos h]
    exact ⟨le_refl 0, zero_le_one⟩
  · rw [if_neg h]
    have hlen : (0:ℝ) <
        ((key_landmark_indices.filter fun i => i < raw.length).length : ℝ) :=
      by exact_mod_cast Nat.pos_of_ne_zero h
    have hbdd : ∀ x ∈ (key_landmark_indices.filter
        fun i => i < raw.length).map
        (fun i => ((raw.get? i).map RawLandmark.visibility).getD 0),
        x ∈ Set.Icc (0:ℝ) 1 := by
      intro x hx
      rw [List.mem_map] at hx
      obtain ⟨i, _hi, rfl⟩ := hx
      cases hg : raw.get? i with
      | none =>
        simp only [hg, Option.map_none', Option.getD_none]
        exact ⟨le_refl (0:ℝ), zero_le_one⟩
      | some l =>
        simpa [hg] using hv l (List.get?_mem hg)
    constructor
    · apply div_nonneg _ hlen.le
      exact List.sum_nonneg fun x hx => (hbdd x hx).1
    · rw [div_le_one hlen]
      calc ((key_landmark_indices.filter fun i => i < raw.length).map
            (fun i => ((raw.get? i).map RawLandmark.visibility).getD 0)).sum
          ≤ ((key_landmark_indices.filter fun i => i < raw.length).map
            (fun i => ((raw.get? i).map RawLandmark.visibility).getD 0)).length
            • (1:ℝ) :=
            List.sum_le_card_nsmul _ _ fun x hx => (hbdd x hx).2
        _ = _ := by simp

/-- The accuracy estimate stays in `[0,1]` for confidences and pose
confidence in `[0,1]`. -/
theorem estimate_accuracy_mem_Icc (measurements : List MeasurementResult)
    (pose_confidence : ℝ)
    (hc : ∀ m ∈ measurements, m.confidence ∈ Set.Icc (0:ℝ) 1)
    (hp : pose_confidence ∈ Set.Icc (0:ℝ) 1) :
    estimate_accuracy measurements pose_confidence ∈ Set.Icc (0:ℝ) 1 := by
  cases measurements with
  | nil =>
    simp only [estimate_accuracy]
    exact ⟨le_refl 0, zero_le_one⟩
  | cons m rest =>
    simp only [estimate_accuracy]
    have hlen : (0:ℝ) < ((m :: rest).length : ℝ) := by
      exact_mod_cast Nat.succ_pos rest.length
    have hsum : 0 ≤ ((m :: rest).map MeasurementResult.confidence).sum := by
      apply List.sum_nonneg
      intro x hx
      rw [List.mem_map] at hx
      obtain ⟨mm, hmm, rfl⟩ := hx
      exact (hc mm hmm).1
    constructor
    · refine le_min ?_ zero_le_one
      have havg : 0 ≤ ((m :: rest).map MeasurementResult.confidence).sum /
          ((m :: rest).length : ℝ) := div_nonneg hsum hlen.le
      have := hp.1
      nlinarith
    · exact min_le_right _ 1

/-- C6: for a non-empty measurement list the overall accuracy is
`0.7 * mean(confidences) + 0.3 * pose_confidence` clamped to at most `1.0`
(and `0.0` for an empty list); and with all confidences and visibilities in
`[0,1]` the result is in `[0,1]`, both for an arbitrary pose confidence in
`[0,1]` and for the pose confidence the pipeline computes from raw landmark
visibilities. -/
theorem overall_accuracy_formula_and_range
    (measurements : List MeasurementResult) (pose_confidence : ℝ)
    (raw : List RawLandmark)
    (hc : ∀ m ∈ measurements, m.confidence ∈ Set.Icc (0:ℝ) 1)
    (hv : ∀ l ∈ raw, l.visibility ∈ Set.Icc (0:ℝ) 1) :
    (measurements ≠ [] →
      estimate_accuracy measurements pose_confidence =
        min (0.7 * ((measurements.map MeasurementResult.confidence).sum /
          (measurements.length : ℝ)) + 0.3 * pose_confidence) 1) ∧
    (measurements = [] →
      estimate_accuracy measurements pose_confidence = 0) ∧
    (pose_confidence ∈ Set.Icc (0:ℝ) 1 →
      estimate_accuracy measurements pose_confidence ∈ Set.Icc (0:ℝ) 1) ∧
    estimate_accuracy measurements (calculate_pose_confidence raw) ∈
      Set.Icc (0:ℝ) 1 := by
  refine ⟨?_, ?_, ?_, ?_⟩
  · intro hne
    cases measurements with
    | nil => exact absurd rfl hne
    | cons m rest =>
      simp only [estimate_accuracy]
      congr 1
      ring
  · intro he
    subst he
    rfl
  · intro hp
    exact estimate_accuracy_mem_Icc measurements pose_confidence hc hp
  · exact estimate_accuracy_mem_Icc measurements _ hc
      (calculate_pose_confidence_mem_Icc raw hv)

/-- Witness for C6: one measurement with confidence `0.9` and pose
confidence `1/2` give overall accuracy `min (0.7*0.9 + 0.3*(1/2)) 1 = 0.78`,
which lies in `[0,1]`. -/
theorem overall_accuracy_witness :
    estimate_accuracy [⟨"height", 170, 0.9, "nose_to_ankle_distance"⟩]
      (1/2) = 0.78 ∧
    estimate_accuracy [⟨"height", 170, 0.9, "nose_to_ankle_distance"⟩]
      (1/2) ∈ Set.Icc (0:ℝ) 1 := by
  have h := overall_accuracy_formula_and_range
    [⟨"height", 170, 0.9, "nose_to_ankle_distance"⟩] (1/2) []
    (by
      intro m hm
      rw [List.mem_singleton] at hm
      subst hm
      exact ⟨by norm_num, by norm_num⟩)
    (by
      intro l hl
      cases hl)
  constructor
  · rw [h.1 (by simp)]
    norm_num
  · exact h.2.2.1 ⟨by norm_num, by norm_num⟩

/-! ## C4: the per-field comparison formula -/

/-- C4: every field present with a value in both measurement records is
compared, with `difference = |ai - manual|`,
`percentage_difference = difference / manual * 100` when `manual > 0` and
`0` otherwise (the manual/reference value is always the denominator), and
the field is acceptable exactly when the percentage difference is at most
10. -/
theorem validation_field_formula (measurement manual_measurement :
      MeasurementFields) (field : String) (ai_value manual_value : ℚ)
    (hf : field ∈ field_names)
    (ha : getField measurement field = some ai_value)
    (hb : getField manual_measurement field = some manual_value) :
    (field, compareField ai_value manual_value) ∈
      buildComparisons measurement manual_measurement ∧
    (compareField ai_value manual_value).difference =
      |ai_value - manual_value| ∧
    (compareField ai_value manual_value).percentage_difference =
      (if 0 < manual_value then
        |ai_value - manual_value| / manual_value * 100
       else 0) ∧
    ((compareField ai_value manual_value).acceptable = true ↔
      (compareField ai_value manual_value).percentage_difference ≤ 10) := by
  refine ⟨?_, rfl, rfl, ?_⟩
  · rw [buildComparisons, List.mem_filterMap]
    exact ⟨field, hf, by rw [ha, hb]⟩
  · simp [compareField]

/-- Witness for C4: comparing `waist` with ai = 100 against manual = 90
gives percentage difference `100/9 ≈ 11.11` and `acceptable = false`;
ai = 95 against 90 gives `50/9 ≈ 5.56` and `acceptable = true`. -/
theorem validation_field_formula_witness :
    ("waist", compareField 100 90) ∈
      buildComparisons only_waist_100 only_waist_90 ∧
    (compareField 100 90).percentage_difference = 100/9 ∧
    (compareField 100 90).acceptable = false ∧
    (compareField 95 90).percentage_difference = 50/9 ∧
    (compareField 95 90).acceptable = true := by
  refine ⟨(validation_field_formula only_waist_100 only_waist_90 "waist"
    100 90 (by simp [field_names]) rfl rfl).1, ?_, ?_, ?_, ?_⟩
  · norm_num [compareField]
  · norm_num [compareField]
  · norm_num [compareField]
  · norm_num [compareField]

/-! ## C5: the validation rollup -/

/-- C5: with zero comparable fields the validation returns the well-formed
"not available" outcome (`validation_available = false`, no division); with
at least one comparable field it returns
`average_discrepancy = total_pct_diff / compared_count`,
`accuracy_score = max 0 (100 - average_discrepancy) / 100` and
`passed = true` exactly when
`acceptable_count / compared_count ≥ 7/10`. -/
theorem validation_rollup (measurement manual_measurement :
      MeasurementFields) :
    ((buildComparisons measurement manual_measurement).length = 0 →
      validate_ai_measurements measurement manual_measurement =
        .unavailable "No comparable measurements found" ∧
      (validate_ai_measurements measurement
        manual_measurement).validation_available = false) ∧
    ((buildComparisons measurement manual_measurement).length ≠ 0 →
      ∃ passed accuracy_score average_discrepancy acceptable_count,
        validate_ai_measurements measurement manual_measurement =
          .available passed accuracy_score average_discrepancy
            (buildComparisons measurement manual_measurement).length
            acceptable_count
            (buildComparisons measurement manual_measurement) ∧
        average_discrepancy =
          ((buildComparisons measurement manual_measurement).map
            fun c => c.2.percentage_difference).sum /
          ((buildComparisons measurement manual_measurement).length : ℚ) ∧
        accuracy_score = max 0 (100 - average_discrepancy) / 100 ∧
        acceptable_count =
          ((buildComparisons measurement manual_measurement).filter
            fun c => c.2.acceptable).length ∧
        (passed = true ↔
          ((acceptable_count : ℚ) /
            ((buildComparisons measurement manual_measurement).length : ℚ)
            ≥ 7/10))) := by
  constructor
  · intro h
    have hu : validate_ai_measurements measurement manual_measurement =
        .unavailable "No comparable measurements found" := by
      simp only [validate_ai_measurements]
      rw [if_pos h]
    exact ⟨hu, by rw [hu]; rfl⟩
  · intro h
    refine ⟨decide ((((buildComparisons measurement
            manual_measurement).filter
          fun c => c.2.acceptable).length : ℚ) /
          ((buildComparisons measurement manual_measurement).length : ℚ)
          ≥ 7/10),
        max 0 (100 - ((buildComparisons measurement manual_measurement).map
          fun c => c.2.percentage_difference).sum /
          ((buildComparisons measurement manual_measurement).length : ℚ))
          / 100,
        ((buildComparisons measurement manual_measurement).map
          fun c => c.2.percentage_difference).sum /
          ((buildComparisons measurement manual_measurement).length : ℚ),
        ((buildComparisons measurement manual_measurement).filter
          fun c => c.2.acceptable).length,
        ?_, rfl, rfl, rfl, ?_⟩
    · simp only [validate_ai_measurements]
      rw [if_neg h]
    · simp

/-- Witness for C5: two records with no common field give the "not
available" outcome; `waist` 95 against 90 gives one compared field,
average discrepancy `50/9`, accuracy score `17/18` and `passed = true`. -/
theorem validation_rollup_witness :
    validate_ai_measurements all_absent only_waist_90 =
      .unavailable "No comparable measurements found" ∧
    validate_ai_measurements only_waist_95 only_waist_90 =
      .available true (17/18) (50/9) 1 1
        [("waist", compareField 95 90)] := by
  constructor
  · exact ((validation_rollup all_absent only_waist_90).1 rfl).1
  · obtain ⟨passed, accuracy_score, average_discrepancy, acceptable_count,
      heq, havg, hacc, hcnt, hpass⟩ :=
      (validation_rollup only_waist_95 only_waist_90).2 (by decide)
    have hb : buildComparisons only_waist_95 only_waist_90 =
        [("waist", compareField 95 90)] := rfl
    have hc : compareField 95 90 =
        { ai_value := 95, manual_value := 90, difference := 5,
          percentage_difference := 50/9, acceptable := true } := by
      norm_num [compareField]
    have havg' : average_discrepancy = 50/9 := by
      rw [havg, hb, hc]
      norm_num
    have hacc' : accuracy_score = 17/18 := by
      rw [hacc, havg',
        max_eq_right (by norm_num : (0:ℚ) ≤ 100 - 50/9)]
      norm_num
    have hcnt' : acceptable_count = 1 := by
      rw [hcnt, hb, hc]
      rfl
    have hpass' : passed = true := by
      rw [hpass, hcnt', hb]
      norm_num
    rw [heq, hb, havg', hacc', hcnt', hpass']
    rfl

end FashionApp
